import Mathlib

/-!
Verification of the Social-DISK repository (src/app.py, src/scraper.py,
src/reddit_scraper.py) against its natural-language specification.

The development shallowly embeds the two cores of the repository:

* the novelty-verification pipeline of `src/app.py`
  (`verify_claim_logic`, `batch_verify_signals`, and the filtering /
  text-selection logic of `main`), and
* the rate-limit-aware fetch loop of `src/scraper.py`
  (`fetch_posts` and `run_scraper`), which is the fetcher the app
  imports and runs (`src/reddit_scraper.py` is a standalone variant).

External collaborators (the Neo4j graph store, the HTTP endpoint, the
language-model extractor, the random number generator) are modelled as
explicit oracle parameters; the Python control flow is translated
statement by statement into total Lean functions.
-/

/-! ## Graph store model (Neo4j side of `verify_claim_logic`, app.py:55-67)

The Cypher query
  `MATCH (s)-[r]->(o)
   WHERE toLower(s.name) CONTAINS toLower($sub)
     AND toLower(o.name) CONTAINS toLower($obj)
   RETURN type(r)`
pattern-matches every directed edge of the store.  We model the store as
the list of its directed edges, each carrying the `name` property of its
endpoints and its relationship type. -/

structure Edge where
  subjectName : String
  relationType : String
  objectName : String
deriving DecidableEq

/-- `leadsWith pat l` : `pat` is an initial segment of `l`. -/
def leadsWith : List Char → List Char → Bool
  | [], _ => true
  | _ :: _, [] => false
  | p :: ps, h :: hs => p == h && leadsWith ps hs

/-- `occursIn pat l` : `pat` occurs as a contiguous segment of `l`
(Cypher `CONTAINS` on the underlying character sequences). -/
def occursIn (pat : List Char) : List Char → Bool
  | [] => pat.isEmpty
  | h :: hs => leadsWith pat (h :: hs) || occursIn pat hs

/-- Cypher `toLower`, character by character. -/
def strLower (s : String) : List Char := s.toList.map Char.toLower

/-- `toLower(stored) CONTAINS toLower(q)` of the Cypher WHERE clause. -/
def lowerContains (stored q : String) : Bool :=
  occursIn (strLower q) (strLower stored)

/-- One stored edge satisfies the WHERE clause for the query pair
`(sub, obj)`.  The relationship type is not constrained. -/
def edgeMatches (e : Edge) (sub obj : String) : Bool :=
  lowerContains e.subjectName sub && lowerContains e.objectName obj

/-- `verify_claim_logic` (app.py:55-67): `.single()` is non-null exactly
when some edge matches, and the function returns `"KNOWN"` in that case
and `"NOVEL"` otherwise. -/
def verify_claim_logic (g : List Edge) (sub obj : String) : String :=
  if g.any (fun e => edgeMatches e sub obj) then "KNOWN" else "NOVEL"

/-! ## Relations and verification records (app.py:69-89, 300-327)

An extracted relation is a JSON object; `rel.get(k)` yields `none` when
the key is missing.  Python truthiness on the retrieved value rejects
both a missing key and an empty string. -/

structure Relation where
  Subject : Option String
  Predicate : Option String
  Object : Option String
  Typ : Option String
  Sentiment : Option String
deriving DecidableEq

/-- Python truthiness of `rel.get(key)` : `None` and `""` are falsy. -/
def pyTruthy : Option String → Bool
  | none => false
  | some s => !s.isEmpty

/-- The dictionary appended to `verified_results` in
`batch_verify_signals`, with the `Status` returned by the store. -/
structure VRecord where
  Subject : String
  Predicate : String
  Object : String
  Typ : String
  Status : String
deriving DecidableEq

/-- A graph-store read (`session.execute_read(verify_claim_logic, ...)`).
It either returns the status string or raises, modelled by `Except`. -/
def Lookup : Type := String → String → Except String String

/-- The loop body of `batch_verify_signals` (app.py:75-88): one pass per
relation, skipping relations whose Subject or Object is falsy, and
propagating a raised store error, which aborts the loop and discards
`verified_results`. -/
def batchGo (look : Lookup) : List Relation → List VRecord → Except String (List VRecord)
  | [], acc => Except.ok acc
  | rel :: rest, acc =>
    if pyTruthy rel.Subject && pyTruthy rel.Object then
      match look (rel.Subject.getD "") (rel.Object.getD "") with
      | Except.error e => Except.error e
      | Except.ok status =>
          batchGo look rest (acc ++ [{ Subject := rel.Subject.getD ""
                                     , Predicate := rel.Predicate.getD "RELATED_TO"
                                     , Object := rel.Object.getD ""
                                     , Typ := rel.Typ.getD "General"
                                     , Status := status }])
    else batchGo look rest acc

/-- `batch_verify_signals` (app.py:69-89).  `get_neo4j_driver` returns
`None` on a connectivity failure (app.py:45-53, the error having been
reported once there), and the function then returns `[]` without
touching the store; otherwise the driver's reads are the `Lookup`. -/
def batch_verify_signals (driver : Option Lookup) (rels : List Relation) : Except String (List VRecord) :=
  match driver with
  | none => Except.ok []
  | some look => batchGo look rels []

/-- A store whose reads all succeed, answering with `verify_claim_logic`
over the edge list `g`. -/
def pureLook (g : List Edge) : Lookup :=
  fun sub obj => Except.ok (verify_claim_logic g sub obj)

/-- The strict filter of `main` (app.py:316-321): Type equals
`"Adverse Event"` and Subject and Object are truthy. -/
def adversePred (rel : Relation) : Bool :=
  rel.Typ == some "Adverse Event" && pyTruthy rel.Subject && pyTruthy rel.Object

/-- The guard of the loop body of `batch_verify_signals`. -/
def validPred (rel : Relation) : Bool :=
  pyTruthy rel.Subject && pyTruthy rel.Object

/-- The record `batch_verify_signals` builds for a relation that passes
its guard, when every read succeeds against the store `g`. -/
def recordOf (g : List Edge) (rel : Relation) : VRecord :=
  { Subject := rel.Subject.getD ""
  , Predicate := rel.Predicate.getD "RELATED_TO"
  , Object := rel.Object.getD ""
  , Typ := rel.Typ.getD "General"
  , Status := verify_claim_logic g (rel.Subject.getD "") (rel.Object.getD "") }

/-- Filter-and-verify step of `main` for one text's relations
(app.py:313-327): apply the strict filter, and call
`batch_verify_signals` only when some relation survives. -/
def filterAndVerify (driver : Option Lookup) (rels : List Relation) : Except String (List VRecord) :=
  let adverse_events := rels.filter adversePred
  if adverse_events.isEmpty then Except.ok []
  else batch_verify_signals driver adverse_events

/-! ## Verification pipeline text loop (app.py:286-329)

The extractor (`RedditIntelligenceAgent.extract_safety_signals`,
app.py:96-140) catches every exception internally and returns either a
parsed JSON object or a dictionary with an `"error"` key; `main` skips
the text in the latter case (`if "error" not in ai_result`). -/

inductive ExtractResult where
  | ok (relations : List Relation)
  | failed (msg : String)
deriving DecidableEq

/-- `texts_to_process = raw_texts[:analysis_limit]` (app.py:289). -/
def texts_to_process (raw_texts : List String) (analysis_limit : Nat) : List String :=
  raw_texts.take analysis_limit

/-- The texts on which the loop of `main` (app.py:300-306) invokes the
extractor, in loop order: texts shorter than 20 characters are skipped
by `continue`, every other text of the truncated list is processed. -/
def processedTexts (raw_texts : List String) (analysis_limit : Nat) : List String :=
  (texts_to_process raw_texts analysis_limit).foldl
    (fun acc text => if text.length < 20 then acc else acc ++ [text]) []

/-- The `all_verifications` accumulated by the loop of `main`
(app.py:300-329), with the extractor behaviour given as the oracle
`ex`: short texts are skipped, texts whose extraction fails contribute
nothing, each other text contributes its filter-and-verify records.
Store errors are not caught anywhere in the loop, so they propagate. -/
def pipelineVerifications (driver : Option Lookup) (ex : String → ExtractResult)
    (raw_texts : List String) (analysis_limit : Nat) : Except String (List VRecord) :=
  (texts_to_process raw_texts analysis_limit).foldlM
    (fun acc text =>
      if text.length < 20 then Except.ok acc
      else
        match ex text with
        | ExtractResult.failed _ => Except.ok acc
        | ExtractResult.ok rels =>
            match filterAndVerify driver rels with
            | Except.error e => Except.error e
            | Except.ok verified => Except.ok (acc ++ verified)) []

/-! ## Rate-limited fetcher (src/scraper.py)

`fetch_posts` (scraper.py:22-101) is a loop issuing one HTTP GET per
iteration.  The network is an oracle: the list of responses the
endpoint will give, in order.  A `Resp.status` carries the HTTP status
code and the parsed JSON body (`data.children` as raw post records and
`data.after` as the next-page cursor); `Resp.crash` stands for any
exception inside the `try` block (timeout, connection error, malformed
JSON), which the `except` clause turns into a `break`. -/

structure RawPost where
  title : Option String
  selftext : Option String
  score : Option Int
  num_comments : Option Int
  created_utc : Option Int
  url : Option String
  id : Option String
deriving DecidableEq

/-- The dictionary appended to `all_posts` (scraper.py:78-87). -/
structure Post where
  source_subreddit : String
  title : Option String
  selftext : Option String
  upvotes : Option Int
  comments_count : Option Int
  created_utc : Option Int
  url : Option String
  id : Option String
deriving DecidableEq

/-- The mapping from a fetched record to a `Post` (scraper.py:76-87). -/
def mkPost (subreddit : String) (p : RawPost) : Post :=
  { source_subreddit := subreddit
  , title := p.title
  , selftext := p.selftext
  , upvotes := p.score
  , comments_count := p.num_comments
  , created_utc := p.created_utc
  , url := p.url
  , id := p.id }

inductive Resp where
  | status (code : Nat) (children : List RawPost) (after : Option String)
  | crash
deriving DecidableEq

/-- Python truthiness of the `after` cursor: `None` and `""` are falsy
(`if not after_token`, scraper.py:91; `if after_token`, scraper.py:44). -/
def cursorTruthy : Option String → Bool
  | none => false
  | some s => !s.isEmpty

/-- The query parameters of one GET (scraper.py:37-45); the `after` key
is present only when the current cursor is truthy. -/
structure Params where
  q : String
  restrict_sr : String
  pageSize : String
  sort : String
  after : Option String
deriving DecidableEq

def requestParams (query : String) (cursor : Option String) : Params :=
  { q := query
  , restrict_sr := "1"
  , pageSize := "25"
  , sort := "new"
  , after := if cursorTruthy cursor then cursor else none }

/-- `max_retries = 3` (scraper.py:33). -/
def max_retries : Nat := 3

/-- `wait_time = (2 ** retries) + random.uniform(1, 3)` (scraper.py:52);
`u` is the sampled jitter. -/
def wait_time (retries : Nat) (u : ℚ) : ℚ := 2 ^ retries + u

/-- The loop state of `fetch_posts`: `all_posts`, `after_token`,
`retries`. -/
structure FetchState where
  allPosts : List Post
  afterToken : Option String
  retries : Nat
deriving DecidableEq

def initState : FetchState := { allPosts := [], afterToken := none, retries := 0 }

inductive StepRes where
  | cont (s : FetchState)
  | done (posts : List Post)
deriving DecidableEq

/-- One iteration of the `while` body of `fetch_posts`
(scraper.py:36-99) on the response `r` of its GET:

* an exception (`crash`) breaks out with `all_posts` as collected;
* on 429, the counter is incremented after the backoff sleep, and the
  loop continues with the same state otherwise — unless the counter now
  exceeds `max_retries`, which breaks out;
* any other non-200 status breaks out;
* on 200, the counter resets to 0, an empty `children` breaks out,
  otherwise the items are appended, the cursor is replaced, and a falsy
  new cursor breaks out. -/
def step (subreddit : String) (s : FetchState) (r : Resp) : StepRes :=
  match r with
  | Resp.crash => StepRes.done s.allPosts
  | Resp.status code children after =>
    if code == 429 then
      if s.retries + 1 > max_retries then StepRes.done s.allPosts
      else StepRes.cont { s with retries := s.retries + 1 }
    else if code != 200 then StepRes.done s.allPosts
    else
      if children.isEmpty then StepRes.done s.allPosts
      else
        let posts := s.allPosts ++ children.map (mkPost subreddit)
        if cursorTruthy after then
          StepRes.cont { allPosts := posts, afterToken := after, retries := 0 }
        else StepRes.done posts

/-- The `while len(all_posts) < limit` loop of `fetch_posts`, run
against the response oracle; exhausting the oracle's responses ends the
run with what was collected.  Returns the final `all_posts`. -/
def fetchRunRaw (subreddit : String) (limit : Nat) : FetchState → List Resp → List Post
  | s, [] => s.allPosts
  | s, r :: rest =>
    if s.allPosts.length < limit then
      match step subreddit s r with
      | StepRes.done posts => posts
      | StepRes.cont s' => fetchRunRaw subreddit limit s' rest
    else s.allPosts

/-- `fetch_posts` (scraper.py:22-101): run the loop from the initial
state and `return all_posts[:limit]`. -/
def fetch_posts (subreddit : String) (limit : Nat) (responses : List Resp) : List Post :=
  (fetchRunRaw subreddit limit initState responses).take limit

/-- `run_scraper` (scraper.py:103-120): one `fetch_posts` task per
subreddit, `asyncio.gather` returning their results in task order, then
flattening.  The oracle gives each subreddit its response sequence.
(The resulting DataFrame keeps this row order.) -/
def run_scraper (subreddits : List String) (limit : Nat) (oracle : String → List Resp) : List Post :=
  let results := subreddits.map (fun sub => fetch_posts sub limit (oracle sub))
  results.flatten

/-- A rate-limited response (HTTP status 429), with any body. -/
def is429 : Resp → Bool
  | Resp.status code _ _ => code == 429
  | Resp.crash => false

/-- A raw post record carrying its index, for concrete runs. -/
def rawNum (n : Nat) : RawPost :=
  { title := some (toString n), selftext := none, score := none
  , num_comments := none, created_utc := none, url := none, id := some (toString n) }

/-- Response oracle of the concrete collection scenario of the spec:
source "A" serves one page of 10 items, source "B" serves only 429s and
is abandoned, source "C" serves one page of 5 items. -/
def oracleABC : String → List Resp := fun sub =>
  if sub = "A" then [Resp.status 200 ((List.range 10).map rawNum) none]
  else if sub = "B" then
    [Resp.status 429 [] none, Resp.status 429 [] none,
     Resp.status 429 [] none, Resp.status 429 [] none]
  else if sub = "C" then [Resp.status 200 ((List.range 5).map rawNum) none]
  else []

/-! ## Claim theorems -/

/-- C1: `verify_one` returns KNOWN iff the store has a directed edge
whose stored subject name contains the query subject and whose stored
object name contains the query object, both case-insensitively and for
any relation type; otherwise it returns NOVEL.  With the stored edge
"Creatine Monohydrate" → "Bloating", the query ("creatine", "bloat")
yields KNOWN and ("creatine", "headache") yields NOVEL. -/
theorem C1_verify_one_known_iff_matching_edge :
    (∀ (g : List Edge) (sub obj : String),
        (verify_claim_logic g sub obj = "KNOWN" ↔ ∃ e ∈ g, edgeMatches e sub obj = true)
      ∧ (verify_claim_logic g sub obj = "KNOWN" ∨ verify_claim_logic g sub obj = "NOVEL"))
    ∧ verify_claim_logic [⟨"Creatine Monohydrate", "CAUSES", "Bloating"⟩] "creatine" "bloat"
        = "KNOWN"
    ∧ verify_claim_logic [⟨"Creatine Monohydrate", "CAUSES", "Bloating"⟩] "creatine" "headache"
        = "NOVEL" := by
  refine ⟨fun g sub obj => ?_, by decide, by decide⟩
  have hiff : verify_claim_logic g sub obj = "KNOWN"
      ↔ (g.any fun e => edgeMatches e sub obj) = true := by
    unfold verify_claim_logic
    cases hb : (g.any fun e => edgeMatches e sub obj) <;> simp [hb]
  refine ⟨hiff.trans List.any_eq_true, ?_⟩
  cases hb : (g.any fun e => edgeMatches e sub obj)
  · exact Or.inr (by simp [verify_claim_logic, hb])
  · exact Or.inl (by simp [verify_claim_logic, hb])

/-- Characterization of the batch loop against a healthy store: it
appends, in input order, exactly one record per relation passing the
guard. -/
theorem batchGo_pure (g : List Edge) :
    ∀ (rels : List Relation) (acc : List VRecord),
      batchGo (pureLook g) rels acc
        = Except.ok (acc ++ (rels.filter validPred).map (recordOf g)) := by
  intro rels
  induction rels with
  | nil => intro acc; simp [batchGo]
  | cons rel rest ih =>
    intro acc
    cases h : (pyTruthy rel.Subject && pyTruthy rel.Object) with
    | true =>
      have hv : validPred rel = true := h
      simp [batchGo, h, pureLook, ih, List.filter_cons, hv, recordOf]
    | false =>
      have hv : validPred rel = false := h
      simp [batchGo, h, ih, List.filter_cons, hv]

/-- The filter-and-verify step against a healthy store: exactly the
relations passing the strict filter produce records, in order. -/
theorem filterAndVerify_pure (g : List Edge) (rels : List Relation) :
    filterAndVerify (some (pureLook g)) rels
      = Except.ok ((rels.filter adversePred).map (recordOf g)) := by
  unfold filterAndVerify
  by_cases he : (rels.filter adversePred).isEmpty = true
  · rw [if_pos he]
    rw [List.isEmpty_iff] at he
    rw [he]
    simp
  · rw [if_neg he]
    dsimp only [batch_verify_signals]
    rw [batchGo_pure]
    have hff : (rels.filter adversePred).filter validPred = rels.filter adversePred := by
      rw [List.filter_filter]
      apply List.filter_congr
      intro a _
      cases h1 : (a.Typ == some "Adverse Event") <;>
        cases h2 : pyTruthy a.Subject <;>
        cases h3 : pyTruthy a.Object <;>
        simp [adversePred, validPred, h1, h2, h3]
    rw [hff, List.nil_append]

/-- C10: with a connected store, the batch emits exactly one record per
relation whose Subject and Object are both non-empty, in input order;
records copy Subject and Object unchanged, a missing Predicate defaults
to "RELATED_TO" and a missing Type defaults to "General". -/
theorem C10_batch_one_record_per_valid_relation :
    (∀ (g : List Edge) (rels : List Relation),
        batch_verify_signals (some (pureLook g)) rels
          = Except.ok ((rels.filter validPred).map (recordOf g)))
    ∧ (∀ (g : List Edge) (s o : String), s ≠ "" → o ≠ "" →
        batch_verify_signals (some (pureLook g))
            [{ Subject := some s, Predicate := none, Object := some o
             , Typ := none, Sentiment := none }]
          = Except.ok [{ Subject := s, Predicate := "RELATED_TO", Object := o
                       , Typ := "General", Status := verify_claim_logic g s o }]) := by
  constructor
  · intro g rels
    dsimp only [batch_verify_signals]
    rw [batchGo_pure, List.nil_append]
  · intro g s o hs ho
    dsimp only [batch_verify_signals]
    rw [batchGo_pure]
    have hv : validPred { Subject := some s, Predicate := none, Object := some o
                        , Typ := none, Sentiment := none } = true := by
      simp only [validPred, pyTruthy, Bool.and_eq_true, Bool.not_eq_true']
      exact ⟨by rw [Bool.eq_false_iff]; simpa [String.isEmpty_iff] using hs,
             by rw [Bool.eq_false_iff]; simpa [String.isEmpty_iff] using ho⟩
    simp [List.filter_cons, hv, recordOf]

/-- C10 witness at a concrete input. -/
theorem C10_batch_one_record_per_valid_relation_witness :
    batch_verify_signals (some (pureLook []))
        [{ Subject := some "X", Predicate := none, Object := some "Y"
         , Typ := none, Sentiment := none }]
      = Except.ok [{ Subject := "X", Predicate := "RELATED_TO", Object := "Y"
                   , Typ := "General", Status := "NOVEL" }] :=
  C10_batch_one_record_per_valid_relation.2 [] "X" "Y" (by decide) (by decide)

/-- C6: a relation reaches the verifier and produces a record exactly
when its Type is "Adverse Event" and Subject and Object are truthy; the
relation {Subject:"X", Predicate:"CAUSES", Object:"", Type:"Adverse
Event"} never produces a record. -/
theorem C6_strict_filter_gates_verifier :
    (∀ (g : List Edge) (rels : List Relation),
        filterAndVerify (some (pureLook g)) rels
          = Except.ok ((rels.filter adversePred).map (recordOf g)))
    ∧ (∀ (g : List Edge),
        filterAndVerify (some (pureLook g))
            [{ Subject := some "X", Predicate := some "CAUSES", Object := some ""
             , Typ := some "Adverse Event", Sentiment := none }]
          = Except.ok []) := by
  refine ⟨filterAndVerify_pure, fun g => ?_⟩
  rfl

/-- C9: a store-connectivity failure (driver `None`) yields the empty
result for the whole batch with no per-item work; a read that raises
mid-batch aborts the remainder and discards the accumulated records;
and a successful batch over at least one guard-passing relation is
never empty, so the failure result is distinguishable from a successful
batch that matched nothing. -/
theorem C9_store_connectivity_failure_is_fatal :
    (∀ rels : List Relation, batch_verify_signals none rels = Except.ok [])
    ∧ (∀ (look : Lookup) (rel : Relation) (rest : List Relation)
          (acc : List VRecord) (e : String),
        pyTruthy rel.Subject = true → pyTruthy rel.Object = true →
        look (rel.Subject.getD "") (rel.Object.getD "") = Except.error e →
        batchGo look (rel :: rest) acc = Except.error e)
    ∧ (∀ (g : List Edge) (rel : Relation) (rest : List Relation),
        pyTruthy rel.Subject = true → pyTruthy rel.Object = true →
        batch_verify_signals (some (pureLook g)) (rel :: rest) ≠ Except.ok []) := by
  refine ⟨fun rels => rfl, ?_, ?_⟩
  · intro look rel rest acc e hs ho hlook
    simp [batchGo, hs, ho, hlook]
  · intro g rel rest hs ho
    dsimp only [batch_verify_signals]
    rw [batchGo_pure, List.nil_append]
    have hv : validPred rel = true := by simp [validPred, hs, ho]
    simp [List.filter_cons, hv]

/-- C9 witness at concrete inputs. -/
theorem C9_store_connectivity_failure_is_fatal_witness :
    batch_verify_signals none
        [{ Subject := some "X", Predicate := none, Object := some "Y"
         , Typ := none, Sentiment := none }] = Except.ok []
    ∧ batchGo (fun _ _ => Except.error "ServiceUnavailable")
        [{ Subject := some "X", Predicate := none, Object := some "Y"
         , Typ := none, Sentiment := none }] [] = Except.error "ServiceUnavailable"
    ∧ batch_verify_signals (some (pureLook []))
        [{ Subject := some "X", Predicate := none, Object := some "Y"
         , Typ := none, Sentiment := none }] ≠ Except.ok [] :=
  ⟨C9_store_connectivity_failure_is_fatal.1 _,
   C9_store_connectivity_failure_is_fatal.2.1 _ _ [] [] "ServiceUnavailable"
     (by decide) (by decide) rfl,
   C9_store_connectivity_failure_is_fatal.2.2 [] _ [] (by decide) (by decide)⟩

/-- The skip-or-process loop accumulates exactly the texts of length at
least 20, in order. -/
theorem processLoop_eq_filter (l : List String) :
    ∀ acc : List String,
      l.foldl (fun acc text => if text.length < 20 then acc else acc ++ [text]) acc
        = acc ++ l.filter (fun t => decide (20 ≤ t.length)) := by
  induction l with
  | nil => intro acc; simp
  | cons t rest ih =>
    intro acc
    by_cases h : t.length < 20
    · have hd : (decide (20 ≤ t.length)) = false := by
        simp [Nat.lt_iff_add_one_le] at h ⊢; omega
      simp [List.foldl_cons, h, ih, List.filter_cons, hd]
    · have hd : (decide (20 ≤ t.length)) = true := by
        simp; omega
      simp [List.foldl_cons, h, ih, List.filter_cons, hd]

/-- C7: the pipeline processes only the first `max_to_process` texts, in
order, and within that prefix skips every text shorter than 20
characters; given three texts of which the second is 10 characters
long, it processes texts #1 and #3; with `max_to_process = 1` it
processes only text #1 however many texts follow. -/
theorem C7_pipeline_processes_prefix_of_long_texts :
    (∀ (raw_texts : List String) (analysis_limit : Nat),
        processedTexts raw_texts analysis_limit
          = (raw_texts.take analysis_limit).filter (fun t => decide (20 ≤ t.length)))
    ∧ processedTexts ["My stomach hurt badly after that powder."
        , "tiny text!"
        , "The gummies gave me a headache all week."] 5
        = ["My stomach hurt badly after that powder."
          , "The gummies gave me a headache all week."]
    ∧ (∀ rest : List String,
        processedTexts ("My stomach hurt badly after that powder." :: rest) 1
          = ["My stomach hurt badly after that powder."]) := by
  refine ⟨fun raw_texts analysis_limit => ?_, by decide, fun rest => ?_⟩
  · unfold processedTexts texts_to_process
    rw [processLoop_eq_filter, List.nil_append]
  · unfold processedTexts texts_to_process
    rw [List.take_succ_cons, List.take_zero, processLoop_eq_filter, List.nil_append]
    decide

/-- When `limit` is already reached, the loop exits at its guard. -/
theorem fetchRunRaw_stop (sub : String) (limit : Nat) (s : FetchState) (l : List Resp)
    (h : ¬ s.allPosts.length < limit) : fetchRunRaw sub limit s l = s.allPosts := by
  cases l with
  | nil => rfl
  | cons r rest => simp [fetchRunRaw, h]

/-- A 429 with a retry budget left: sleep, increment, same state. -/
theorem step_429_cont (sub : String) (s : FetchState) (children : List RawPost)
    (after : Option String) (h : s.retries + 1 ≤ max_retries) :
    step sub s (Resp.status 429 children after)
      = StepRes.cont { s with retries := s.retries + 1 } := by
  simp [step, Nat.not_lt.mpr h]

/-- A 429 past the retry budget: the source is abandoned. -/
theorem step_429_abandon (sub : String) (s : FetchState) (children : List RawPost)
    (after : Option String) (h : max_retries < s.retries + 1) :
    step sub s (Resp.status 429 children after) = StepRes.done s.allPosts := by
  simp [step, h]

/-- Loop form of `step_429_cont`. -/
theorem fetchRunRaw_429_cont (sub : String) (limit : Nat) (s : FetchState) (r : Resp)
    (rest : List Resp) (h429 : is429 r = true) (hlt : s.allPosts.length < limit)
    (h : s.retries + 1 ≤ max_retries) :
    fetchRunRaw sub limit s (r :: rest)
      = fetchRunRaw sub limit { s with retries := s.retries + 1 } rest := by
  cases r with
  | crash => simp [is429] at h429
  | status code children after =>
    have hc : code = 429 := by simpa [is429] using h429
    subst hc
    simp [fetchRunRaw, hlt, step_429_cont sub s children after h]

/-- Loop form of `step_429_abandon`: the run ends with `all_posts`. -/
theorem fetchRunRaw_429_stop (sub : String) (limit : Nat) (s : FetchState) (r : Resp)
    (rest : List Resp) (h429 : is429 r = true) (h : max_retries < s.retries + 1) :
    fetchRunRaw sub limit s (r :: rest) = s.allPosts := by
  by_cases hlt : s.allPosts.length < limit
  · cases r with
    | crash => simp [is429] at h429
    | status code children after =>
      have hc : code = 429 := by simpa [is429] using h429
      subst hc
      simp [fetchRunRaw, hlt, step_429_abandon sub s children after h]
  · exact fetchRunRaw_stop sub limit s _ hlt

/-- C2: starting with a fresh retry counter, a run of consecutive 429
responses is retried at most 3 times: three consecutive 429s leave the
loop on the same page with the counter at 3, and a fourth consecutive
429 abandons the source, returning exactly the posts accumulated before
the 429s began, as a normal result. -/
theorem C2_four_429s_abandon_after_three_retries :
    (∀ (sub : String) (limit : Nat) (s : FetchState) (r1 r2 r3 r4 : Resp) (rest : List Resp),
        s.retries = 0 →
        is429 r1 = true → is429 r2 = true → is429 r3 = true → is429 r4 = true →
        fetchRunRaw sub limit s (r1 :: r2 :: r3 :: r4 :: rest) = s.allPosts)
    ∧ (∀ (sub : String) (limit : Nat) (s : FetchState) (r1 r2 r3 : Resp) (rest : List Resp),
        s.retries = 0 → s.allPosts.length < limit →
        is429 r1 = true → is429 r2 = true → is429 r3 = true →
        fetchRunRaw sub limit s (r1 :: r2 :: r3 :: rest)
          = fetchRunRaw sub limit { s with retries := 3 } rest) := by
  constructor
  · intro sub limit s r1 r2 r3 r4 rest h0 h1 h2 h3 h4
    by_cases hlt : s.allPosts.length < limit
    · calc fetchRunRaw sub limit s (r1 :: r2 :: r3 :: r4 :: rest)
          = fetchRunRaw sub limit { s with retries := s.retries + 1 }
              (r2 :: r3 :: r4 :: rest) :=
            fetchRunRaw_429_cont sub limit s r1 _ h1 hlt (by show s.retries + 1 ≤ 3; omega)
        _ = fetchRunRaw sub limit { s with retries := s.retries + 1 + 1 }
              (r3 :: r4 :: rest) :=
            fetchRunRaw_429_cont sub limit _ r2 _ h2 hlt
              (by show s.retries + 1 + 1 ≤ 3; omega)
        _ = fetchRunRaw sub limit { s with retries := s.retries + 1 + 1 + 1 }
              (r4 :: rest) :=
            fetchRunRaw_429_cont sub limit _ r3 _ h3 hlt
              (by show s.retries + 1 + 1 + 1 ≤ 3; omega)
        _ = s.allPosts :=
            fetchRunRaw_429_stop sub limit _ r4 _ h4
              (by show 3 < s.retries + 1 + 1 + 1 + 1; omega)
    · exact fetchRunRaw_stop sub limit s _ hlt
  · intro sub limit s r1 r2 r3 rest h0 hlt h1 h2 h3
    calc fetchRunRaw sub limit s (r1 :: r2 :: r3 :: rest)
        = fetchRunRaw sub limit { s with retries := s.retries + 1 } (r2 :: r3 :: rest) :=
          fetchRunRaw_429_cont sub limit s r1 _ h1 hlt (by show s.retries + 1 ≤ 3; omega)
      _ = fetchRunRaw sub limit { s with retries := s.retries + 1 + 1 } (r3 :: rest) :=
          fetchRunRaw_429_cont sub limit _ r2 _ h2 hlt
            (by show s.retries + 1 + 1 ≤ 3; omega)
      _ = fetchRunRaw sub limit { s with retries := s.retries + 1 + 1 + 1 } rest :=
          fetchRunRaw_429_cont sub limit _ r3 _ h3 hlt
            (by show s.retries + 1 + 1 + 1 ≤ 3; omega)
      _ = fetchRunRaw sub limit { s with retries := 3 } rest := by rw [h0]

/-- C2 witness: a source with one accumulated post and four canned 429
responses returns just that post; after three 429s the loop is still
on the same page with the counter at 3. -/
theorem C2_four_429s_abandon_after_three_retries_witness :
    fetchRunRaw "supplements" 100
        { allPosts := [mkPost "supplements" (rawNum 0)], afterToken := some "t3", retries := 0 }
        [Resp.status 429 [] none, Resp.status 429 [] none,
         Resp.status 429 [] none, Resp.status 429 [] none]
      = [mkPost "supplements" (rawNum 0)]
    ∧ fetchRunRaw "supplements" 100
        { allPosts := [mkPost "supplements" (rawNum 0)], afterToken := some "t3", retries := 0 }
        [Resp.status 429 [] none, Resp.status 429 [] none, Resp.status 429 [] none]
      = fetchRunRaw "supplements" 100
          { allPosts := [mkPost "supplements" (rawNum 0)], afterToken := some "t3", retries := 3 }
          [] :=
  ⟨C2_four_429s_abandon_after_three_retries.1 "supplements" 100
      { allPosts := [mkPost "supplements" (rawNum 0)], afterToken := some "t3", retries := 0 }
      _ _ _ _ [] rfl rfl rfl rfl rfl,
   C2_four_429s_abandon_after_three_retries.2 "supplements" 100
      { allPosts := [mkPost "supplements" (rawNum 0)], afterToken := some "t3", retries := 0 }
      _ _ _ [] rfl (by decide) rfl rfl rfl⟩

/-- C3: on a 429 the fetcher sleeps `min(2^retries, 8) + jitter`
seconds (the uncapped `2^retries` of the code never exceeds 8, because
the retry counter never exceeds `max_retries = 3` at a sleep), then
increments the counter and retries with unchanged posts and an
unchanged pagination cursor, hence the same request parameters; the
counter starts at 0 and the bound is invariant under the loop. -/
theorem C3_backoff_increments_and_retries_same_page :
    (∀ (r : Nat) (u : ℚ), r ≤ max_retries → wait_time r u = min (2 ^ r) 8 + u)
    ∧ (∀ (q sub : String) (s : FetchState) (children : List RawPost) (after : Option String),
        s.retries + 1 ≤ max_retries →
        ∃ s', step sub s (Resp.status 429 children after) = StepRes.cont s'
          ∧ s'.allPosts = s.allPosts
          ∧ s'.retries = s.retries + 1
          ∧ requestParams q s'.afterToken = requestParams q s.afterToken)
    ∧ initState.retries = 0
    ∧ (∀ (sub : String) (s : FetchState) (r : Resp) (s' : FetchState),
        s.retries ≤ max_retries → step sub s r = StepRes.cont s' →
        s'.retries ≤ max_retries) := by
  refine ⟨?_, ?_, rfl, ?_⟩
  · intro r u h
    have h3 : r ≤ 3 := h
    interval_cases r <;> simp [wait_time] <;> norm_num
  · intro q sub s children after h
    exact ⟨{ s with retries := s.retries + 1 }, step_429_cont sub s children after h,
      rfl, rfl, rfl⟩
  · intro sub s r s' hle hstep
    cases r with
    | crash => simp [step] at hstep
    | status code children after =>
      by_cases h429 : (code == 429) = true
      · by_cases hgt : s.retries + 1 > max_retries
        · simp [step, h429, hgt] at hstep
        · simp [step, h429, hgt] at hstep
          have hgt' : ¬ s.retries + 1 > 3 := hgt
          rw [← hstep]
          show s.retries + 1 ≤ 3
          omega
      · by_cases h200 : (code != 200) = true
        · simp [step, h429, h200] at hstep
        · by_cases hemp : children.isEmpty = true
          · simp [step, h429, h200, hemp] at hstep
          · by_cases hcur : cursorTruthy after = true
            · simp [step, h429, h200, hemp, hcur] at hstep
              rw [← hstep]
              show 0 ≤ 3
              omega
            · simp [step, h429, h200, hemp, hcur] at hstep

/-- C3 witness at concrete inputs: the third backoff sleeps
`min(4, 8) + 3/2` seconds, a fresh-state 429 continues with counter 1
and the same cursor, and the invariant holds across that step. -/
theorem C3_backoff_increments_and_retries_same_page_witness :
    wait_time 2 (3 / 2) = min ((2 : ℚ) ^ 2) 8 + 3 / 2
    ∧ (∃ s', step "nutrition" initState (Resp.status 429 [] none) = StepRes.cont s'
        ∧ s'.allPosts = initState.allPosts
        ∧ s'.retries = initState.retries + 1
        ∧ requestParams "creatine" s'.afterToken = requestParams "creatine" initState.afterToken)
    ∧ ({ allPosts := [], afterToken := none, retries := 1 } : FetchState).retries
        ≤ max_retries :=
  ⟨C3_backoff_increments_and_retries_same_page.1 2 (3 / 2) (by decide),
   C3_backoff_increments_and_retries_same_page.2.1 "creatine" "nutrition" initState [] none
     (by decide),
   C3_backoff_increments_and_retries_same_page.2.2.2 "nutrition" initState
     (Resp.status 429 [] none) { allPosts := [], afterToken := none, retries := 1 }
     (by decide) rfl⟩

/-- C4: the fetcher never returns more than `limit` posts, whatever the
responses; and whenever the loop accumulated at least `limit` posts,
the final `all_posts[:limit]` truncation returns exactly `limit`. -/
theorem C4_fetch_never_exceeds_limit :
    (∀ (sub : String) (limit : Nat) (responses : List Resp),
        (fetch_posts sub limit responses).length ≤ limit)
    ∧ (∀ (sub : String) (limit : Nat) (responses : List Resp),
        limit ≤ (fetchRunRaw sub limit initState responses).length →
        (fetch_posts sub limit responses).length = limit) := by
  constructor
  · intro sub limit responses
    simp [fetch_posts, List.length_take]
  · intro sub limit responses h
    simp [fetch_posts, List.length_take]
    omega

/-- C4 witness: one page of two items against `limit = 1` yields
exactly one post. -/
theorem C4_fetch_never_exceeds_limit_witness :
    (fetch_posts "frugal" 1 [Resp.status 200 [rawNum 0, rawNum 1] none]).length ≤ 1
    ∧ (fetch_posts "frugal" 1 [Resp.status 200 [rawNum 0, rawNum 1] none]).length = 1 :=
  ⟨C4_fetch_never_exceeds_limit.1 "frugal" 1 _,
   C4_fetch_never_exceeds_limit.2 "frugal" 1 _ (by decide)⟩

/-- C5: the collector returns the per-source results concatenated in
the order the sources were given, each source contributing its own
fetch independently; in the concrete scenario, source "A" contributes
10 posts in arrival order, "B" is abandoned after its 429s and
contributes none, and "C" contributes 5 posts, for 15 posts total. -/
theorem C5_collector_concatenates_in_source_order :
    (∀ (l1 : List String) (sub : String) (l2 : List String) (limit : Nat)
        (oracle : String → List Resp),
        run_scraper (l1 ++ sub :: l2) limit oracle
          = run_scraper l1 limit oracle ++ fetch_posts sub limit (oracle sub)
              ++ run_scraper l2 limit oracle)
    ∧ run_scraper ["A", "B", "C"] 50 oracleABC
        = (List.range 10).map (fun n => mkPost "A" (rawNum n))
            ++ (List.range 5).map (fun n => mkPost "C" (rawNum n))
    ∧ (run_scraper ["A", "B", "C"] 50 oracleABC).length = 15 := by
  refine ⟨?_, by decide, by decide⟩
  intro l1 sub l2 limit oracle
  simp [run_scraper, List.map_append, List.flatten_append]

/-- The text loop against a healthy store: each text contributes its
own records ([] when skipped or failed), concatenated in text order. -/
theorem pipelineGo_pure (g : List Edge) (ex : String → ExtractResult) :
    ∀ (l : List String) (acc : List VRecord),
      (l.foldlM (fun acc text =>
        if text.length < 20 then Except.ok acc
        else
          match ex text with
          | ExtractResult.failed _ => Except.ok acc
          | ExtractResult.ok rels =>
              match filterAndVerify (some (pureLook g)) rels with
              | Except.error e => Except.error e
              | Except.ok verified => Except.ok (acc ++ verified)) acc
        : Except String (List VRecord))
      = Except.ok (acc ++ (l.map (fun t =>
          if t.length < 20 then []
          else
            match ex t with
            | ExtractResult.failed _ => []
            | ExtractResult.ok rels => (rels.filter adversePred).map (recordOf g))).flatten) := by
  intro l
  have hbind : ∀ (a : List VRecord) (k : List VRecord → Except String (List VRecord)),
      (Except.ok a >>= k) = k a := fun _ _ => rfl
  induction l with
  | nil => intro acc; simp; rfl
  | cons t rest ih =>
    intro acc
    rw [List.foldlM_cons]
    by_cases hlen : t.length < 20
    · rw [if_pos hlen, hbind, ih]
      simp [hlen]
    · cases hex : ex t with
      | failed m =>
        rw [if_neg hlen]
        dsimp only
        rw [hbind, ih]
        simp [hlen, hex]
      | ok rels =>
        rw [if_neg hlen]
        dsimp only
        rw [filterAndVerify_pure]
        dsimp only
        rw [hbind, ih]
        simp [hlen, hex, List.append_assoc]

/-- C8: a network exception or a terminal non-200/non-429 status ends
only that source's fetch, returning the posts collected so far; a text
whose extraction fails (or is too short) contributes no records while
the batch continues with the remaining texts; and changing one source's
responses leaves every other source's contribution unchanged. -/
theorem C8_failures_absorbed_locally :
    (∀ (sub : String) (limit : Nat) (s : FetchState) (rest : List Resp),
        fetchRunRaw sub limit s (Resp.crash :: rest) = s.allPosts)
    ∧ (∀ (sub : String) (limit : Nat) (s : FetchState) (code : Nat)
          (children : List RawPost) (after : Option String) (rest : List Resp),
        (code == 429) = false → (code == 200) = false →
        fetchRunRaw sub limit s (Resp.status code children after :: rest) = s.allPosts)
    ∧ (∀ (g : List Edge) (ex : String → ExtractResult) (raw_texts : List String)
          (analysis_limit : Nat),
        pipelineVerifications (some (pureLook g)) ex raw_texts analysis_limit
          = Except.ok (((texts_to_process raw_texts analysis_limit).map (fun t =>
              if t.length < 20 then []
              else
                match ex t with
                | ExtractResult.failed _ => []
                | ExtractResult.ok rels =>
                    (rels.filter adversePred).map (recordOf g))).flatten))
    ∧ (∀ (subs : List String) (limit : Nat) (oracle oracle' : String → List Resp)
          (b : String),
        (∀ x, x ≠ b → oracle x = oracle' x) → b ∉ subs →
        run_scraper subs limit oracle = run_scraper subs limit oracle') := by
  refine ⟨?_, ?_, ?_, ?_⟩
  · intro sub limit s rest
    by_cases hlt : s.allPosts.length < limit
    · simp [fetchRunRaw, hlt, step]
    · exact fetchRunRaw_stop sub limit s _ hlt
  · intro sub limit s code children after rest h429 h200
    by_cases hlt : s.allPosts.length < limit
    · simp [fetchRunRaw, hlt, step, h429, bne, h200]
    · exact fetchRunRaw_stop sub limit s _ hlt
  · intro g ex raw_texts analysis_limit
    unfold pipelineVerifications
    rw [pipelineGo_pure, List.nil_append]
  · intro subs limit oracle oracle' b hagree hb
    show (subs.map (fun sub => fetch_posts sub limit (oracle sub))).flatten
      = (subs.map (fun sub => fetch_posts sub limit (oracle' sub))).flatten
    congr 1
    apply List.map_congr_left
    intro x hx
    rw [hagree x (fun hxb => hb (hxb ▸ hx))]

/-- C8 witness at concrete inputs: a crash and a 403 each end their
source with the posts collected so far; a batch whose only text fails
extraction returns no records but succeeds; altering an absent
source's responses leaves the collection unchanged. -/
theorem C8_failures_absorbed_locally_witness :
    fetchRunRaw "fitness" 10 initState [Resp.crash] = []
    ∧ fetchRunRaw "fitness" 10 initState [Resp.status 403 [] none] = []
    ∧ pipelineVerifications (some (pureLook [])) (fun _ => ExtractResult.failed "boom")
        ["Creatine makes me bloat every day."] 5 = Except.ok []
    ∧ run_scraper ["A1"] 5 (fun _ => [Resp.crash])
        = run_scraper ["A1"] 5 (fun x => if x = "B1" then [] else [Resp.crash]) :=
  ⟨C8_failures_absorbed_locally.1 "fitness" 10 initState [],
   C8_failures_absorbed_locally.2.1 "fitness" 10 initState 403 [] none [] rfl rfl,
   C8_failures_absorbed_locally.2.2.1 [] (fun _ => ExtractResult.failed "boom")
     ["Creatine makes me bloat every day."] 5,
   C8_failures_absorbed_locally.2.2.2 ["A1"] 5 (fun _ => [Resp.crash])
     (fun x => if x = "B1" then [] else [Resp.crash]) "B1"
     (fun x hx => by simp [hx]) (by simp)⟩
